import Mathlib

/-!
# Verification of the corp-finance MCP server against its specification

This file shallowly embeds the parts of the `finance_mcps` repository that the
frozen claims talk about:

* the numeric resolution engine (NPV / IRR / MOIC and the circular fixed-point
  solver).  The Rust crate `crates/corp-finance-core` that implements it is not
  part of the shipped sources (only its TypeScript callers, its integration
  test and its documentation are), so these definitions are modelled from the
  specification, as marked in their doc comments.  Exact decimal arithmetic is
  modelled by `ℚ`.
* the TypeScript MCP boundary layer (`packages/mcp-server/src`): the registered
  tool definitions with their JSON input schemas, the dispatcher of
  `index.ts`, the Zod validation schemas of `schemas.ts`, and the uniform
  tool-handler control flow of `tools.ts` / `tools-phase2.ts`.
-/

/-! ## Error kinds (spec §7)

Modelled from the spec: error kinds are `InvalidInput` (malformed or
out-of-domain input), `DivisionByZero`, `NoConvergence`. -/

/-- Modelled from the spec: the out-of-domain reasons named by the spec for
`InvalidInput` failures (no sign change, empty series, rate ≤ −100%, negative
invested capital). -/
inductive InvalidReason where
  | noSignChange
  | emptySeries
  | rateTooLow
  | negativeInvestedCapital
deriving DecidableEq

/-- Modelled from the spec (§7): the three recoverable error kinds of the core. -/
inductive ErrorKind where
  | invalidInput (why : InvalidReason)
  | divisionByZero
  | noConvergence
deriving DecidableEq

/-! ## Time-value-of-money engine (spec §4.2)

The Rust module `time_value` is absent from the sources; the definitions below
are modelled from spec §4.2. -/

/-- Convergence tolerance on the NPV value (spec §4.2: `1e-6`). -/
def tolerance : ℚ := 1 / 1000000

/-- Iteration cap for the IRR rootfinder (spec §4.2: suggested cap 100). -/
def irrMaxIter : Nat := 100

/-- Modelled from the spec: the running loop of NPV evaluation, discounting the
cash flow at position `t` by `(1+r)^t` and recursing on the tail. -/
def npvGo : List ℚ → ℚ → Nat → ℚ
  | [], _, _ => 0
  | cf :: rest, r, t => cf / (1 + r) ^ t + npvGo rest r (t + 1)

/-- Modelled from the spec: the NPV value `Σ cf[t] / (1+r)^t`, `rate` a
fraction. -/
def npvValue (cfs : List ℚ) (r : ℚ) : ℚ := npvGo cfs r 0

/-- Modelled from the spec: the running loop of the analytic NPV derivative. -/
def npvDerivGo : List ℚ → ℚ → Nat → ℚ
  | [], _, _ => 0
  | cf :: rest, r, t => -(t : ℚ) * cf / (1 + r) ^ (t + 1) + npvDerivGo rest r (t + 1)

/-- Modelled from the spec: the analytic derivative `Σ −t·cf[t]/(1+r)^(t+1)`. -/
def npvDeriv (cfs : List ℚ) (r : ℚ) : ℚ := npvDerivGo cfs r 0

/-- Modelled from the spec (§4.2): `calculate_npv` fails with `InvalidInput`
when the series is empty or the rate (a fraction) is ≤ −100%, and otherwise
evaluates the closed-form sum by the running loop. -/
def calculate_npv (cfs : List ℚ) (r : ℚ) : Except ErrorKind ℚ :=
  if cfs.isEmpty then .error (.invalidInput .emptySeries)
  else if r ≤ -1 then .error (.invalidInput .rateTooLow)
  else .ok (npvGo cfs r 0)

/-- Modelled from the spec (§3): the IRR series must contain at least one
negative and one positive value. -/
def hasSignChange (cfs : List ℚ) : Bool :=
  cfs.any (fun c => decide (c < 0)) && cfs.any (fun c => decide (0 < c))

/-- Modelled from the spec (§3): a tagged rootfinding outcome, never a bare
number. -/
inductive RootResult where
  | converged (rate : ℚ) (iterations : Nat)
  | failed (reason : ErrorKind) (lastEstimate : ℚ) (iterations : Nat)
deriving DecidableEq

/-- Lower end of the bisection bracket (spec §4.2: −99%). -/
def bracketLo : ℚ := -(99 / 100)

/-- Upper end of the bisection bracket (spec §4.2: +1000%). -/
def bracketHi : ℚ := 10

/-- Modelled from the spec: bisection on a bracket, converging when
`|NPV(mid)| < tolerance`, keeping the half with the sign change. -/
def bisectGo (cfs : List ℚ) (fuel : Nat) (lo hi : ℚ) (iter : Nat) : RootResult :=
  if |npvValue cfs ((lo + hi) / 2)| < tolerance then .converged ((lo + hi) / 2) iter
  else match fuel with
  | 0 => .failed .noConvergence ((lo + hi) / 2) iter
  | fuel + 1 =>
    if npvValue cfs lo * npvValue cfs ((lo + hi) / 2) < 0 then
      bisectGo cfs fuel lo ((lo + hi) / 2) (iter + 1)
    else bisectGo cfs fuel ((lo + hi) / 2) hi (iter + 1)

/-- Modelled from the spec: the bisection fallback over the wide rate range
−99% to +1000%, tried before declaring `Failed{NoConvergence}`. -/
def bisectFallback (cfs : List ℚ) (iter : Nat) : RootResult :=
  if npvValue cfs bracketLo * npvValue cfs bracketHi < 0 then
    bisectGo cfs irrMaxIter bracketLo bracketHi iter
  else .failed .noConvergence bracketLo iter

/-- Modelled from the spec: the Newton-Raphson loop
`r_{k+1} = r_k − NPV(r_k)/NPV'(r_k)`, converged when `|NPV(r_k)| < tolerance`,
falling back to bisection when the derivative is zero, the iterate leaves the
sane domain (rate ≤ −100% or `|r| > 10`), or the iteration cap is spent. -/
def newtonGo (cfs : List ℚ) (fuel : Nat) (r : ℚ) (iter : Nat) : RootResult :=
  if |npvValue cfs r| < tolerance then .converged r iter
  else match fuel with
  | 0 => bisectFallback cfs iter
  | fuel + 1 =>
    if npvDeriv cfs r = 0 then bisectFallback cfs iter
    else
      if r - npvValue cfs r / npvDeriv cfs r ≤ -1 ∨ |r - npvValue cfs r / npvDeriv cfs r| > 10 then
        bisectFallback cfs iter
      else newtonGo cfs fuel (r - npvValue cfs r / npvDeriv cfs r) (iter + 1)

/-- Modelled from the spec (§4.2): `calculate_irr` takes the initial guess as a
percentage defaulting to 10 (i.e. 10%), requires a sign change in the series
(otherwise it fails with `InvalidInput{NoSignChange}` immediately, with zero
iterations performed), and otherwise runs the Newton-Raphson loop. -/
def calculate_irr (cfs : List ℚ) (guessPct : ℚ := 10) : RootResult :=
  if hasSignChange cfs then newtonGo cfs irrMaxIter (guessPct / 100) 0
  else .failed (.invalidInput .noSignChange) (guessPct / 100) 0

/-- Modelled from the spec (§4.1): decimal division fails with
`DivisionByZero` on an exactly-zero denominator rather than returning a
sentinel. -/
def divChecked (a b : ℚ) : Except ErrorKind ℚ :=
  if b = 0 then .error .divisionByZero else .ok (a / b)

/-- Modelled from the spec (§4.2): `calculate_moic` is
`realizedValue / investedCapital`, failing with `DivisionByZero` when invested
capital is zero and `InvalidInput` when it is negative. -/
def calculate_moic (investedCapital realizedValue : ℚ) : Except ErrorKind ℚ :=
  if investedCapital < 0 then .error (.invalidInput .negativeInvestedCapital)
  else divChecked realizedValue investedCapital

/-! ## Circular solver (spec §4.3)

The Rust module `circular_solver` is absent from the sources; modelled from
spec §4.3 as the generic fixed-point driver over "a vector of decimal values
and a pure function mapping old vector to new vector". -/

/-- Modelled from the spec (§4.3): a tagged circular-solver outcome with the
last state and the iteration count. -/
inductive CircOutcome where
  | converged (state : List ℚ) (iterations : Nat)
  | failed (reason : ErrorKind) (lastState : List ℚ) (iterations : Nat)
deriving DecidableEq

/-- Modelled from the spec: the maximum absolute change across the tracked
quantities. -/
def maxAbsDiff (a b : List ℚ) : ℚ :=
  (List.zipWith (fun x y => |x - y|) a b).foldr max 0

/-- Modelled from the spec: the fixed-point driver, repeatedly applying the
update function and stopping when `maxAbsDiff` falls below the tolerance or
the fuel (the hard iteration cap) is spent. -/
def fixedPointGo (f : List ℚ → List ℚ) (tol : ℚ) : Nat → List ℚ → Nat → CircOutcome
  | 0, s, iter => .failed .noConvergence s iter
  | fuel + 1, s, iter =>
    let s2 := f s
    if maxAbsDiff s s2 < tol then .converged s2 (iter + 1)
    else fixedPointGo f tol fuel s2 (iter + 1)

/-- Modelled from the spec (§4.3): the circular solver with explicit tolerance
and hard iteration cap (suggested 200 for fixed-point iteration). -/
def circularSolver (f : List ℚ → List ℚ) (tol : ℚ) (cap : Nat) (s0 : List ℚ) : CircOutcome :=
  fixedPointGo f tol cap s0 0

/-! ## MCP boundary layer: tool handlers (`packages/mcp-server/src/tools.ts`,
`tools-phase2.ts`)

Every handler in `tools.ts` and `tools-phase2.ts` has the same control flow:
validate the raw arguments with a Zod schema, `JSON.stringify` the validated
value, call the native binding on that string, `JSON.parse` the returned
string, and wrap the result in a single `{ type: 'text', text }` content item
whose text is `JSON.stringify(result, null, 2)`; any thrown `Error` is caught
and re-thrown as `McpError(ErrorCode.InvalidRequest, context + message)`.
The Zod internals, `JSON.stringify`/`JSON.parse` and the Rust binding are
external to the server sources and appear as function parameters. -/

/-- The MCP error codes used by the handlers (`ErrorCode` of the MCP SDK;
`tools.ts` only ever uses `InvalidRequest`). -/
inductive McpCode where
  | invalidRequest
  | internalError
deriving DecidableEq

/-- An `McpError` thrown by a tool handler: a code and a message. -/
structure McpFailure where
  code : McpCode
  message : String
deriving DecidableEq

/-- One element of the `content` array returned by a handler. -/
structure ContentItem where
  type : String
  text : String
deriving DecidableEq

/-- The shape of a successful handler return value. -/
structure ToolOutput where
  content : List ContentItem
deriving DecidableEq

/-- The shared control flow of every tool handler in `tools.ts` and
`tools-phase2.ts`: validate, stringify, call the binding, parse, wrap in one
text content item; any `Error` thrown on the way becomes an
`McpError(InvalidRequest, context ++ message)`.  `A`, `V` and `J` stand for
the raw argument, Zod-validated and JSON-parsed value types. -/
def runToolHandler {A V J : Type} (context : String)
    (validate : A → Except String V) (stringifyVal : V → String)
    (binding : String → Except String String) (parseJson : String → Except String J)
    (pretty2 : J → String) (args : A) : Except McpFailure ToolOutput :=
  match validate args with
  | .error m => .error { code := .invalidRequest, message := context ++ m }
  | .ok v =>
    match binding (stringifyVal v) with
    | .error m => .error { code := .invalidRequest, message := context ++ m }
    | .ok resultJson =>
      match parseJson resultJson with
      | .error m => .error { code := .invalidRequest, message := context ++ m }
      | .ok result => .ok { content := [{ type := "text", text := pretty2 result }] }

/-- The message argument of each handler's `McpError`, from `tools.ts` and
`tools-phase2.ts` (the text before `${error.message}`). -/
def handlerContexts : List String :=
  ["WACC calculation failed: ", "Credit metrics calculation failed: ",
   "DCF model calculation failed: ", "Debt capacity calculation failed: ",
   "Covenant compliance check failed: ", "Three statement model calculation failed: ",
   "Equity/Enterprise bridge calculation failed: ", "Diluted shares calculation failed: ",
   "Accounting flow analysis failed: ", "Football field valuation failed: ",
   "Paper LBO calculation failed: ", "NPV calculation failed: ",
   "IRR calculation failed: ", "MOIC calculation failed: ",
   "Sources and Uses calculation failed: ", "Value bridge calculation failed: "]

/-- `handleWaccCalculator` from `tools.ts`. -/
def handleWaccCalculator {A V J : Type} := @runToolHandler A V J "WACC calculation failed: "

/-- `handleCalculateNpv` from `tools.ts` (phase 3 section). -/
def handleCalculateNpv {A V J : Type} := @runToolHandler A V J "NPV calculation failed: "

/-- `handleCalculateIrr` from `tools.ts` (phase 3 section). -/
def handleCalculateIrr {A V J : Type} := @runToolHandler A V J "IRR calculation failed: "

/-- The containment of one string in another, as `∃` decomposition. -/
def msgContains (needle hay : String) : Prop :=
  ∃ pre post, hay = pre ++ needle ++ post

/-! ## Registered tool definitions and their JSON input schemas

Transcribed from `packages/mcp-server/src/index.ts` (`PHASE1_TOOLS`),
`tool-definitions-phase2.ts` (`PHASE2_TOOLS`) and
`tool-definitions-phase3.ts` (`PHASE3_TOOLS`).  The JSON-schema `type` of a
property is one of `'number'`, `'string'`, `['number', 'string']`, a string
enum, an array of such items, or an array of flat objects. -/

/-- The JSON-schema type of a scalar property or array item. -/
inductive LeafType where
  | num
  | str
  | numOrStr
  | strEnum (values : List String)
deriving DecidableEq

/-- The JSON-schema shape of one tool input property: a scalar, an array of
scalars, or an array of flat objects (with the nested `required` list). -/
inductive FieldType where
  | leaf (t : LeafType)
  | arrLeaf (t : LeafType)
  | arrObj (props : List (String × LeafType × Option String)) (required : List String)
deriving DecidableEq

/-- One entry of a tool's `inputSchema.properties`: name, type and optional
description. -/
structure ToolProp where
  pname : String
  jty : FieldType
  descr : Option String
deriving DecidableEq

/-- One registered tool: name, description, input properties and the
`required` list. -/
structure ToolDef where
  name : String
  descr : String
  props : List ToolProp
  required : List String
deriving DecidableEq

/-- `PHASE1_TOOLS` from `index.ts`. -/
def PHASE1_TOOLS : List ToolDef :=
  [{ name := "wacc_calculator",
     descr := "Calculate Weighted Average Cost of Capital (WACC) for corporate valuation",
     props :=
       [⟨"equity_value", .leaf .numOrStr, some "Market value of equity"⟩,
        ⟨"debt_value", .leaf .numOrStr, some "Market value of debt"⟩,
        ⟨"cost_of_equity", .leaf .numOrStr, some "Cost of equity as percentage (e.g., 12.5 for 12.5%)"⟩,
        ⟨"cost_of_debt", .leaf .numOrStr, some "Cost of debt as percentage"⟩,
        ⟨"tax_rate", .leaf .numOrStr, some "Corporate tax rate as percentage"⟩],
     required := ["equity_value", "debt_value", "cost_of_equity", "cost_of_debt", "tax_rate"] },
   { name := "credit_metrics",
     descr := "Calculate key credit metrics for corporate debt analysis including leverage ratios and rating indication",
     props :=
       [⟨"ebitda", .leaf .numOrStr, some "EBITDA (Earnings Before Interest, Taxes, Depreciation, and Amortization)"⟩,
        ⟨"total_debt", .leaf .numOrStr, some "Total debt outstanding"⟩,
        ⟨"interest_expense", .leaf .numOrStr, some "Annual interest expense"⟩,
        ⟨"ebit", .leaf .numOrStr, some "EBIT (Earnings Before Interest and Taxes)"⟩,
        ⟨"current_assets", .leaf .numOrStr, some "Current assets"⟩,
        ⟨"current_liabilities", .leaf .numOrStr, some "Current liabilities"⟩,
        ⟨"total_assets", .leaf .numOrStr, some "Total assets"⟩],
     required := ["ebitda", "total_debt", "interest_expense", "ebit", "current_assets",
                  "current_liabilities", "total_assets"] },
   { name := "dcf_model",
     descr := "Calculate Discounted Cash Flow (DCF) valuation with terminal value using perpetual growth method",
     props :=
       [⟨"free_cash_flows", .arrLeaf .numOrStr, some "Array of projected free cash flows"⟩,
        ⟨"discount_rate", .leaf .numOrStr, some "Discount rate as percentage (typically WACC)"⟩,
        ⟨"terminal_growth_rate", .leaf .numOrStr, some "Terminal growth rate as percentage"⟩],
     required := ["free_cash_flows", "discount_rate", "terminal_growth_rate"] },
   { name := "debt_capacity",
     descr := "Calculate debt capacity based on EBITDA multiples, commonly used in leveraged finance and M&A",
     props :=
       [⟨"ebitda", .leaf .numOrStr, some "EBITDA"⟩,
        ⟨"target_leverage_multiple", .leaf .numOrStr, some "Target leverage multiple (e.g., 4.5x)"⟩,
        ⟨"existing_debt", .leaf .numOrStr, some "Existing debt amount"⟩,
        ⟨"cash_balance", .leaf .numOrStr, some "Available cash balance"⟩],
     required := ["ebitda", "target_leverage_multiple", "existing_debt", "cash_balance"] },
   { name := "covenant_compliance",
     descr := "Check compliance with debt covenants (maximum, minimum, or range-based)",
     props :=
       [⟨"tests", .arrObj
          [("name", .str, some "Name of the covenant test"),
           ("covenant_type", .strEnum ["maximum", "minimum", "range"], some "Type of covenant"),
           ("limit", .numOrStr, some "Covenant limit value"),
           ("actual", .numOrStr, some "Actual value to test")]
          ["name", "covenant_type", "limit", "actual"],
          some "Array of covenant tests to perform"⟩],
     required := ["tests"] }]

/-- `PHASE2_TOOLS` from `tool-definitions-phase2.ts`. -/
def PHASE2_TOOLS : List ToolDef :=
  [{ name := "three_statement_model",
     descr := "Build linked three-statement financial model (Income Statement, Balance Sheet, Cash Flow)",
     props :=
       [⟨"starting_cash", .leaf .numOrStr, some "Starting cash balance"⟩,
        ⟨"starting_debt", .leaf .numOrStr, some "Starting debt balance"⟩,
        ⟨"starting_equity", .leaf .numOrStr, some "Starting equity balance"⟩,
        ⟨"starting_inventory", .leaf .numOrStr, some "Starting inventory"⟩,
        ⟨"starting_ar", .leaf .numOrStr, some "Starting accounts receivable"⟩,
        ⟨"starting_ap", .leaf .numOrStr, some "Starting accounts payable"⟩,
        ⟨"starting_ppe", .leaf .numOrStr, some "Starting PP&E (net)"⟩,
        ⟨"revenue", .arrLeaf .numOrStr, some "Annual revenue projections"⟩,
        ⟨"cogs_percent", .leaf .numOrStr, some "COGS as % of revenue"⟩,
        ⟨"opex_percent", .leaf .numOrStr, some "OpEx as % of revenue"⟩,
        ⟨"tax_rate", .leaf .numOrStr, some "Tax rate %"⟩,
        ⟨"capex", .arrLeaf .numOrStr, some "Annual CapEx"⟩,
        ⟨"depreciation", .arrLeaf .numOrStr, some "Annual depreciation"⟩,
        ⟨"nwc_percent_revenue", .leaf .numOrStr, some "NWC as % of revenue"⟩,
        ⟨"interest_rate", .leaf .numOrStr, some "Interest rate % on debt"⟩],
     required := ["starting_cash", "starting_debt", "starting_equity", "starting_inventory",
                  "starting_ar", "starting_ap", "starting_ppe", "revenue", "cogs_percent",
                  "opex_percent", "tax_rate", "capex", "depreciation", "nwc_percent_revenue",
                  "interest_rate"] },
   { name := "equity_enterprise_bridge",
     descr := "Convert between Equity Value and Enterprise Value using bridge items",
     props :=
       [⟨"direction", .leaf (.strEnum ["equity_to_ev", "ev_to_equity"]), some "Conversion direction"⟩,
        ⟨"value", .leaf .numOrStr, some "Starting value (equity or EV depending on direction)"⟩,
        ⟨"cash", .leaf .numOrStr, some "Cash balance"⟩,
        ⟨"debt", .leaf .numOrStr, some "Total debt"⟩,
        ⟨"minority_interest", .leaf .numOrStr, some "Minority interest"⟩,
        ⟨"associates", .leaf .numOrStr, some "Associates/investments"⟩,
        ⟨"preferred_stock", .leaf .numOrStr, some "Preferred stock"⟩],
     required := ["direction", "value", "cash", "debt", "minority_interest", "associates",
                  "preferred_stock"] },
   { name := "diluted_shares",
     descr := "Calculate fully diluted shares using treasury stock method for options, RSUs, and convertibles",
     props :=
       [⟨"basic_shares", .leaf .numOrStr, some "Basic shares outstanding"⟩,
        ⟨"stock_price", .leaf .numOrStr, some "Current stock price"⟩,
        ⟨"options", .arrObj
           [("quantity", .numOrStr, none), ("strike_price", .numOrStr, none)]
           ["quantity", "strike_price"], some "Stock options"⟩,
        ⟨"rsus", .leaf .numOrStr, some "RSUs outstanding"⟩,
        ⟨"convertibles", .arrObj
           [("principal", .numOrStr, none), ("conversion_price", .numOrStr, none)]
           ["principal", "conversion_price"], some "Convertible securities"⟩],
     required := ["basic_shares", "stock_price", "options", "rsus", "convertibles"] },
   { name := "accounting_flow",
     descr := "Analyze impact of a transaction on all three financial statements (\"walk me through\" questions)",
     props :=
       [⟨"transaction", .leaf .str, some "Description of the transaction"⟩,
        ⟨"amount", .leaf .numOrStr, some "Transaction amount"⟩,
        ⟨"transaction_type", .leaf (.strEnum
           ["depreciation", "amortization", "capex", "debt_issuance", "debt_repayment",
            "inventory_purchase", "revenue_recognition"]), some "Type of transaction"⟩],
     required := ["transaction", "amount", "transaction_type"] },
   { name := "football_field",
     descr := "Create football field valuation summary across multiple methodologies (DCF, Comps, Precedents)",
     props :=
       [⟨"dcf_low", .leaf .numOrStr, some "DCF valuation low end"⟩,
        ⟨"dcf_high", .leaf .numOrStr, some "DCF valuation high end"⟩,
        ⟨"comps_low", .leaf .numOrStr, some "Comps valuation low end"⟩,
        ⟨"comps_high", .leaf .numOrStr, some "Comps valuation high end"⟩,
        ⟨"precedents_low", .leaf .numOrStr, some "Precedents valuation low end"⟩,
        ⟨"precedents_high", .leaf .numOrStr, some "Precedents valuation high end"⟩,
        ⟨"current_price", .leaf .numOrStr, some "Current price (optional)"⟩],
     required := ["dcf_low", "dcf_high", "comps_low", "comps_high", "precedents_low",
                  "precedents_high"] },
   { name := "paper_lbo",
     descr := "Quick mental math LBO analysis (no Excel) - calculate IRR and returns",
     props :=
       [⟨"purchase_price", .leaf .numOrStr, some "Purchase price"⟩,
        ⟨"ebitda", .leaf .numOrStr, some "Entry EBITDA"⟩,
        ⟨"entry_multiple", .leaf .numOrStr, some "Entry EBITDA multiple"⟩,
        ⟨"debt_multiple", .leaf .numOrStr, some "Debt as multiple of EBITDA (e.g., 5x)"⟩,
        ⟨"ebitda_growth_rate", .leaf .numOrStr, some "Annual EBITDA growth %"⟩,
        ⟨"hold_period_years", .leaf .num, some "Hold period in years"⟩,
        ⟨"exit_multiple", .leaf .numOrStr, some "Exit EBITDA multiple"⟩,
        ⟨"interest_rate", .leaf .numOrStr, some "Interest rate % on debt"⟩],
     required := ["purchase_price", "ebitda", "entry_multiple", "debt_multiple",
                  "ebitda_growth_rate", "hold_period_years", "exit_multiple", "interest_rate"] }]

/-- `PHASE3_TOOLS` from `tool-definitions-phase3.ts`. -/
def PHASE3_TOOLS : List ToolDef :=
  [{ name := "calculate_npv",
     descr := "Calculate Net Present Value (NPV) of a series of cash flows at a given discount rate",
     props :=
       [⟨"cash_flows", .arrLeaf .numOrStr,
          some "Array of cash flows (negative for outflows, positive for inflows)"⟩,
        ⟨"discount_rate", .leaf .numOrStr, some "Discount rate as percentage (e.g., 10 for 10%)"⟩],
     required := ["cash_flows", "discount_rate"] },
   { name := "calculate_irr",
     descr := "Calculate Internal Rate of Return (IRR) using Newton-Raphson method for a series of cash flows",
     props :=
       [⟨"cash_flows", .arrLeaf .numOrStr,
          some "Array of cash flows (must start with negative investment)"⟩,
        ⟨"initial_guess", .leaf .numOrStr,
          some "Initial guess for IRR as percentage (defaults to 10)"⟩],
     required := ["cash_flows"] },
   { name := "calculate_moic",
     descr := "Calculate Multiple on Invested Capital (MOIC) - a key PE/LBO metric",
     props :=
       [⟨"invested_capital", .leaf .numOrStr, some "Initial capital invested"⟩,
        ⟨"realized_value", .leaf .numOrStr, some "Total realized/exit value"⟩],
     required := ["invested_capital", "realized_value"] },
   { name := "sources_and_uses",
     descr := "Build Sources and Uses table for M&A/LBO transactions with automatic balancing and percentage calculations",
     props :=
       [⟨"senior_debt", .leaf .numOrStr, some "Senior debt amount"⟩,
        ⟨"subordinated_debt", .leaf .numOrStr, some "Subordinated debt amount"⟩,
        ⟨"equity_contribution", .leaf .numOrStr, some "Sponsor equity contribution"⟩,
        ⟨"rollover_equity", .leaf .numOrStr, some "Management rollover equity"⟩,
        ⟨"seller_note", .leaf .numOrStr, some "Seller note amount (optional)"⟩,
        ⟨"other_sources", .arrObj
           [("name", .str, some "Source name"), ("amount", .numOrStr, some "Source amount")]
           ["name", "amount"], some "Additional sources"⟩,
        ⟨"purchase_equity_value", .leaf .numOrStr, some "Purchase equity value"⟩,
        ⟨"refinanced_debt", .leaf .numOrStr, some "Debt being refinanced"⟩,
        ⟨"transaction_fees", .leaf .numOrStr, some "Transaction/advisory fees"⟩,
        ⟨"financing_fees", .leaf .numOrStr, some "Financing/arrangement fees"⟩,
        ⟨"other_uses", .arrObj
           [("name", .str, some "Use name"), ("amount", .numOrStr, some "Use amount")]
           ["name", "amount"], some "Additional uses"⟩],
     required := ["senior_debt", "subordinated_debt", "equity_contribution", "rollover_equity",
                  "purchase_equity_value", "refinanced_debt", "transaction_fees",
                  "financing_fees"] },
   { name := "value_bridge",
     descr := "Calculate PE/LBO returns attribution bridge - decompose equity returns into EBITDA growth, multiple expansion, and deleveraging",
     props :=
       [⟨"entry_ebitda", .leaf .numOrStr, some "Entry EBITDA"⟩,
        ⟨"entry_multiple", .leaf .numOrStr, some "Entry EV/EBITDA multiple"⟩,
        ⟨"entry_net_debt", .leaf .numOrStr, some "Entry net debt"⟩,
        ⟨"exit_ebitda", .leaf .numOrStr, some "Exit EBITDA"⟩,
        ⟨"exit_multiple", .leaf .numOrStr, some "Exit EV/EBITDA multiple"⟩,
        ⟨"exit_net_debt", .leaf .numOrStr, some "Exit net debt"⟩],
     required := ["entry_ebitda", "entry_multiple", "entry_net_debt", "exit_ebitda",
                  "exit_multiple", "exit_net_debt"] }]

/-- `ALL_TOOLS` from `index.ts`: the concatenation of the three phases. -/
def ALL_TOOLS : List ToolDef := PHASE1_TOOLS ++ PHASE2_TOOLS ++ PHASE3_TOOLS

/-- The tool names handled by the `CallToolRequestSchema` switch in
`index.ts`. -/
def dispatchedToolNames : List String :=
  ["wacc_calculator", "credit_metrics", "dcf_model", "debt_capacity", "covenant_compliance",
   "three_statement_model", "equity_enterprise_bridge", "diluted_shares", "accounting_flow",
   "football_field", "paper_lbo",
   "calculate_npv", "calculate_irr", "calculate_moic", "sources_and_uses", "value_bridge"]

/-! ## Zod validation schemas (`packages/mcp-server/src/schemas.ts`) -/

/-- The scalar Zod validators appearing in `schemas.ts`. -/
inductive ZLeaf where
  | zstr
  | znum
  | zstrOrNum
  | zenum (values : List String)
deriving DecidableEq

/-- The shape of one Zod object field: a scalar, an `.optional()` scalar, an
array of scalars, or an array of flat objects. -/
inductive ZField where
  | plain (t : ZLeaf)
  | opt (t : ZLeaf)
  | zarr (t : ZLeaf)
  | zarrObj (fields : List (String × ZLeaf))
deriving DecidableEq

/-- A Zod object schema as its list of named fields. -/
def ZodSchema : Type := List (String × ZField)

/-- `WaccInputSchema` from `schemas.ts`. -/
def WaccInputSchema : ZodSchema :=
  [("equity_value", .plain .zstrOrNum), ("debt_value", .plain .zstrOrNum),
   ("cost_of_equity", .plain .zstrOrNum), ("cost_of_debt", .plain .zstrOrNum),
   ("tax_rate", .plain .zstrOrNum)]

/-- `CreditMetricsInputSchema` from `schemas.ts`. -/
def CreditMetricsInputSchema : ZodSchema :=
  [("ebitda", .plain .zstrOrNum), ("total_debt", .plain .zstrOrNum),
   ("interest_expense", .plain .zstrOrNum), ("ebit", .plain .zstrOrNum),
   ("current_assets", .plain .zstrOrNum), ("current_liabilities", .plain .zstrOrNum),
   ("total_assets", .plain .zstrOrNum)]

/-- `DcfInputSchema` from `schemas.ts`. -/
def DcfInputSchema : ZodSchema :=
  [("free_cash_flows", .zarr .zstrOrNum), ("discount_rate", .plain .zstrOrNum),
   ("terminal_growth_rate", .plain .zstrOrNum)]

/-- `DebtCapacityInputSchema` from `schemas.ts`. -/
def DebtCapacityInputSchema : ZodSchema :=
  [("ebitda", .plain .zstrOrNum), ("target_leverage_multiple", .plain .zstrOrNum),
   ("existing_debt", .plain .zstrOrNum), ("cash_balance", .plain .zstrOrNum)]

/-- The fields of `CovenantTestSchema` from `schemas.ts`. -/
def CovenantTestFields : List (String × ZLeaf) :=
  [("name", .zstr), ("covenant_type", .zenum ["maximum", "minimum", "range"]),
   ("limit", .zstrOrNum), ("actual", .zstrOrNum)]

/-- `CovenantInputSchema` from `schemas.ts`. -/
def CovenantInputSchema : ZodSchema := [("tests", .zarrObj CovenantTestFields)]

/-- `ThreeStatementInputSchema` from `schemas.ts`. -/
def ThreeStatementInputSchema : ZodSchema :=
  [("starting_cash", .plain .zstrOrNum), ("starting_debt", .plain .zstrOrNum),
   ("starting_equity", .plain .zstrOrNum), ("starting_inventory", .plain .zstrOrNum),
   ("starting_ar", .plain .zstrOrNum), ("starting_ap", .plain .zstrOrNum),
   ("starting_ppe", .plain .zstrOrNum), ("revenue", .zarr .zstrOrNum),
   ("cogs_percent", .plain .zstrOrNum), ("opex_percent", .plain .zstrOrNum),
   ("tax_rate", .plain .zstrOrNum), ("capex", .zarr .zstrOrNum),
   ("depreciation", .zarr .zstrOrNum), ("nwc_percent_revenue", .plain .zstrOrNum),
   ("interest_rate", .plain .zstrOrNum)]

/-- `EquityEnterpriseBridgeInputSchema` from `schemas.ts`. -/
def EquityEnterpriseBridgeInputSchema : ZodSchema :=
  [("direction", .plain (.zenum ["equity_to_ev", "ev_to_equity"])),
   ("value", .plain .zstrOrNum), ("cash", .plain .zstrOrNum), ("debt", .plain .zstrOrNum),
   ("minority_interest", .plain .zstrOrNum), ("associates", .plain .zstrOrNum),
   ("preferred_stock", .plain .zstrOrNum)]

/-- The fields of `OptionGrantSchema` from `schemas.ts`. -/
def OptionGrantFields : List (String × ZLeaf) :=
  [("quantity", .zstrOrNum), ("strike_price", .zstrOrNum)]

/-- The fields of `ConvertibleSchema` from `schemas.ts`. -/
def ConvertibleFields : List (String × ZLeaf) :=
  [("principal", .zstrOrNum), ("conversion_price", .zstrOrNum)]

/-- `DilutedSharesInputSchema` from `schemas.ts`. -/
def DilutedSharesInputSchema : ZodSchema :=
  [("basic_shares", .plain .zstrOrNum), ("stock_price", .plain .zstrOrNum),
   ("options", .zarrObj OptionGrantFields), ("rsus", .plain .zstrOrNum),
   ("convertibles", .zarrObj ConvertibleFields)]

/-- `AccountingFlowInputSchema` from `schemas.ts`. -/
def AccountingFlowInputSchema : ZodSchema :=
  [("transaction", .plain .zstr), ("amount", .plain .zstrOrNum),
   ("transaction_type", .plain (.zenum
      ["depreciation", "amortization", "capex", "debt_issuance", "debt_repayment",
       "inventory_purchase", "revenue_recognition"]))]

/-- `FootballFieldInputSchema` from `schemas.ts`. -/
def FootballFieldInputSchema : ZodSchema :=
  [("dcf_low", .plain .zstrOrNum), ("dcf_high", .plain .zstrOrNum),
   ("comps_low", .plain .zstrOrNum), ("comps_high", .plain .zstrOrNum),
   ("precedents_low", .plain .zstrOrNum), ("precedents_high", .plain .zstrOrNum),
   ("current_price", .opt .zstrOrNum)]

/-- `PaperLboInputSchema` from `schemas.ts`; note `hold_period_years` is
`z.number()`, with no string alternative. -/
def PaperLboInputSchema : ZodSchema :=
  [("purchase_price", .plain .zstrOrNum), ("ebitda", .plain .zstrOrNum),
   ("entry_multiple", .plain .zstrOrNum), ("debt_multiple", .plain .zstrOrNum),
   ("ebitda_growth_rate", .plain .zstrOrNum), ("hold_period_years", .plain .znum),
   ("exit_multiple", .plain .zstrOrNum), ("interest_rate", .plain .zstrOrNum)]

/-- The Zod input schemas exported by `schemas.ts`, by name. -/
def zodSchemas : List (String × ZodSchema) :=
  [("WaccInputSchema", WaccInputSchema), ("CreditMetricsInputSchema", CreditMetricsInputSchema),
   ("DcfInputSchema", DcfInputSchema), ("DebtCapacityInputSchema", DebtCapacityInputSchema),
   ("CovenantInputSchema", CovenantInputSchema),
   ("ThreeStatementInputSchema", ThreeStatementInputSchema),
   ("EquityEnterpriseBridgeInputSchema", EquityEnterpriseBridgeInputSchema),
   ("DilutedSharesInputSchema", DilutedSharesInputSchema),
   ("AccountingFlowInputSchema", AccountingFlowInputSchema),
   ("FootballFieldInputSchema", FootballFieldInputSchema),
   ("PaperLboInputSchema", PaperLboInputSchema)]

/-! ## Checks over the transcribed schemas -/

/-- Whether a JSON-schema scalar that is numeric at all accepts both the
native number and the decimal-string encoding (non-numeric scalars pass
vacuously). -/
def leafAcceptsBoth : LeafType → Bool
  | .num => false
  | .str => true
  | .numOrStr => true
  | .strEnum _ => true

/-- `leafAcceptsBoth` lifted to a property shape. -/
def fieldAcceptsBoth : FieldType → Bool
  | .leaf t => leafAcceptsBoth t
  | .arrLeaf t => leafAcceptsBoth t
  | .arrObj props _ => props.all fun p => leafAcceptsBoth p.2.1

/-- Whether every numeric field of a tool's JSON input schema accepts both
encodings. -/
def toolAcceptsBoth (t : ToolDef) : Bool := t.props.all fun p => fieldAcceptsBoth p.jty

/-- Whether a Zod scalar that is numeric at all accepts both encodings. -/
def zleafAcceptsBoth : ZLeaf → Bool
  | .znum => false
  | .zstr => true
  | .zstrOrNum => true
  | .zenum _ => true

/-- `zleafAcceptsBoth` lifted to a Zod field shape. -/
def zfieldAcceptsBoth : ZField → Bool
  | .plain t => zleafAcceptsBoth t
  | .opt t => zleafAcceptsBoth t
  | .zarr t => zleafAcceptsBoth t
  | .zarrObj fields => fields.all fun p => zleafAcceptsBoth p.2

/-- Whether every numeric field of a Zod object schema accepts both
encodings. -/
def zodAcceptsBoth (s : ZodSchema) : Bool := s.all fun p => zfieldAcceptsBoth p.2

/-- Whether the pattern occurs at the head of the character list. -/
def matchHere : List Char → List Char → Bool
  | [], _ => true
  | _ :: _, [] => false
  | a :: as, b :: bs => a == b && matchHere as bs

/-- Whether the pattern occurs anywhere in the character list. -/
def containsSubAux (needle : List Char) : List Char → Bool
  | [] => matchHere needle []
  | c :: cs => matchHere needle (c :: cs) || containsSubAux needle cs

/-- Substring test on strings. -/
def containsSub (needle haystack : String) : Bool :=
  containsSubAux needle.toList haystack.toList

/-- Lower-casing of a string, character by character. -/
def lowerStr (s : String) : String := String.mk (s.toList.map Char.toLower)

/-- Whether some registered AND dispatched tool's name mentions the given
operation keyword. -/
def exposesKey (k : String) : Bool :=
  ALL_TOOLS.any fun t => containsSub k (lowerStr t.name) && dispatchedToolNames.contains t.name

/-- The operation keywords of the five logical operations the spec names for
the boundary layer (NPV, IRR, XIRR, MOIC, circular three-statement
resolution). -/
def opSearchKeys : List String := ["npv", "irr", "xirr", "moic", "three_statement"]

/-- Lookup of a registered tool by name. -/
def findTool (n : String) : Option ToolDef := ALL_TOOLS.find? fun t => t.name == n

/-! ## Supporting lemmas -/

/-- Appending the empty string on the right is the identity. -/
lemma append_empty_string (s : String) : s ++ "" = s := by
  cases s
  simp [String.instAppend, String.append]

/-- The running NPV loop started at exponent `t` computes the closed-form
discounted sum with exponents shifted by `t`. -/
lemma npvGo_eq_sum (cfs : List ℚ) (r : ℚ) (t : Nat) :
    npvGo cfs r t = ∑ i ∈ Finset.range cfs.length, cfs.getD i 0 / (1 + r) ^ (t + i) := by
  induction cfs generalizing t with
  | nil => simp [npvGo]
  | cons cf rest ih =>
    rw [npvGo, ih (t + 1), List.length_cons, Finset.sum_range_succ']
    have hsum : (∑ i ∈ Finset.range rest.length,
          (cf :: rest).getD (i + 1) 0 / (1 + r) ^ (t + (i + 1)))
        = ∑ i ∈ Finset.range rest.length, rest.getD i 0 / (1 + r) ^ (t + 1 + i) :=
      Finset.sum_congr rfl fun i _ => by
        rw [List.getD_cons_succ, show t + (i + 1) = t + 1 + i from by omega]
    rw [hsum, List.getD_cons_zero, Nat.add_zero]
    exact add_comm _ _

/-- One-step unfolding of `bisectGo` at fuel zero. -/
lemma bisectGo_zero (cfs : List ℚ) (lo hi : ℚ) (iter : Nat) :
    bisectGo cfs 0 lo hi iter =
      if |npvValue cfs ((lo + hi) / 2)| < tolerance then .converged ((lo + hi) / 2) iter
      else .failed .noConvergence ((lo + hi) / 2) iter := rfl

/-- One-step unfolding of `bisectGo` at positive fuel. -/
lemma bisectGo_succ (cfs : List ℚ) (fuel : Nat) (lo hi : ℚ) (iter : Nat) :
    bisectGo cfs (fuel + 1) lo hi iter =
      if |npvValue cfs ((lo + hi) / 2)| < tolerance then .converged ((lo + hi) / 2) iter
      else if npvValue cfs lo * npvValue cfs ((lo + hi) / 2) < 0 then
        bisectGo cfs fuel lo ((lo + hi) / 2) (iter + 1)
      else bisectGo cfs fuel ((lo + hi) / 2) hi (iter + 1) := rfl

/-- One-step unfolding of `newtonGo` at fuel zero. -/
lemma newtonGo_zero (cfs : List ℚ) (r : ℚ) (iter : Nat) :
    newtonGo cfs 0 r iter =
      if |npvValue cfs r| < tolerance then .converged r iter
      else bisectFallback cfs iter := rfl

/-- One-step unfolding of `newtonGo` at positive fuel. -/
lemma newtonGo_succ (cfs : List ℚ) (fuel : Nat) (r : ℚ) (iter : Nat) :
    newtonGo cfs (fuel + 1) r iter =
      if |npvValue cfs r| < tolerance then .converged r iter
      else if npvDeriv cfs r = 0 then bisectFallback cfs iter
      else if r - npvValue cfs r / npvDeriv cfs r ≤ -1 ∨
          |r - npvValue cfs r / npvDeriv cfs r| > 10 then bisectFallback cfs iter
      else newtonGo cfs fuel (r - npvValue cfs r / npvDeriv cfs r) (iter + 1) := rfl

/-- The bisection loop only reports `converged` at a rate whose NPV is inside
the tolerance. -/
lemma bisectGo_converged (cfs : List ℚ) (fuel : Nat) :
    ∀ (lo hi : ℚ) (iter : Nat) (r : ℚ) (its : Nat),
      bisectGo cfs fuel lo hi iter = .converged r its → |npvValue cfs r| < tolerance := by
  induction fuel with
  | zero =>
    intro lo hi iter r its h
    rw [bisectGo_zero] at h
    by_cases hc : |npvValue cfs ((lo + hi) / 2)| < tolerance
    · rw [if_pos hc] at h
      injection h with h1 h2
      rwa [← h1]
    · rw [if_neg hc] at h
      exact absurd h (by simp)
  | succ fuel ih =>
    intro lo hi iter r its h
    rw [bisectGo_succ] at h
    by_cases hc : |npvValue cfs ((lo + hi) / 2)| < tolerance
    · rw [if_pos hc] at h
      injection h with h1 h2
      rwa [← h1]
    · rw [if_neg hc] at h
      by_cases hs : npvValue cfs lo * npvValue cfs ((lo + hi) / 2) < 0
      · rw [if_pos hs] at h
        exact ih lo ((lo + hi) / 2) (iter + 1) r its h
      · rw [if_neg hs] at h
        exact ih ((lo + hi) / 2) hi (iter + 1) r its h

/-- The bisection fallback only reports `converged` at a rate whose NPV is
inside the tolerance. -/
lemma bisectFallback_converged (cfs : List ℚ) (iter : Nat) (r : ℚ) (its : Nat)
    (h : bisectFallback cfs iter = .converged r its) : |npvValue cfs r| < tolerance := by
  rw [bisectFallback] at h
  by_cases hb : npvValue cfs bracketLo * npvValue cfs bracketHi < 0
  · rw [if_pos hb] at h
    exact bisectGo_converged cfs irrMaxIter bracketLo bracketHi iter r its h
  · rw [if_neg hb] at h
    exact absurd h (by simp)

/-- The Newton-Raphson loop only reports `converged` at a rate whose NPV is
inside the tolerance. -/
lemma newtonGo_converged (cfs : List ℚ) (fuel : Nat) :
    ∀ (r0 : ℚ) (iter : Nat) (r : ℚ) (its : Nat),
      newtonGo cfs fuel r0 iter = .converged r its → |npvValue cfs r| < tolerance := by
  induction fuel with
  | zero =>
    intro r0 iter r its h
    rw [newtonGo_zero] at h
    by_cases hc : |npvValue cfs r0| < tolerance
    · rw [if_pos hc] at h
      injection h with h1 h2
      rwa [← h1]
    · rw [if_neg hc] at h
      exact bisectFallback_converged cfs iter r its h
  | succ fuel ih =>
    intro r0 iter r its h
    rw [newtonGo_succ] at h
    by_cases hc : |npvValue cfs r0| < tolerance
    · rw [if_pos hc] at h
      injection h with h1 h2
      rwa [← h1]
    · rw [if_neg hc] at h
      by_cases hd : npvDeriv cfs r0 = 0
      · rw [if_pos hd] at h
        exact bisectFallback_converged cfs iter r its h
      · rw [if_neg hd] at h
        by_cases he : r0 - npvValue cfs r0 / npvDeriv cfs r0 ≤ -1 ∨
            |r0 - npvValue cfs r0 / npvDeriv cfs r0| > 10
        · rw [if_pos he] at h
          exact bisectFallback_converged cfs iter r its h
        · rw [if_neg he] at h
          exact ih (r0 - npvValue cfs r0 / npvDeriv cfs r0) (iter + 1) r its h

/-- The fixed-point loop either converges within its fuel, with the
convergence test satisfied by the state it returns, or spends all its fuel
and fails with `noConvergence` at iteration `iter + fuel`. -/
lemma fixedPointGo_trichotomy (f : List ℚ → List ℚ) (tol : ℚ) (fuel : Nat) :
    ∀ (s : List ℚ) (iter : Nat),
      (∃ prev s2 k, fixedPointGo f tol fuel s iter = .converged s2 k ∧ s2 = f prev ∧
        maxAbsDiff prev s2 < tol ∧ k ≤ iter + fuel) ∨
      (∃ last, fixedPointGo f tol fuel s iter = .failed .noConvergence last (iter + fuel)) := by
  induction fuel with
  | zero =>
    intro s iter
    exact Or.inr ⟨s, rfl⟩
  | succ fuel ih =>
    intro s iter
    rw [fixedPointGo]
    by_cases hc : maxAbsDiff s (f s) < tol
    · rw [if_pos hc]
      exact Or.inl ⟨s, f s, iter + 1, rfl, rfl, hc, by omega⟩
    · rw [if_neg hc]
      rcases ih (f s) (iter + 1) with ⟨prev, s2, k, hk, hsf, hm, hle⟩ | ⟨last, hl⟩
      · exact Or.inl ⟨prev, s2, k, hk, hsf, hm, by omega⟩
      · refine Or.inr ⟨last, ?_⟩
        rw [hl]
        congr 1
        omega

/-! ## Claims -/

/-- C1, counterexample: the claim that every logical operation among NPV, IRR,
XIRR, MOIC and circular three-statement resolution has a named, dispatched
tool entry point is false at the concrete operation XIRR: no registered tool's
name or description mentions XIRR at all, so no registered-and-dispatched tool
exposes it, and the universal check over the five operation keywords fails. -/
theorem C1_xirr_not_exposed :
    (ALL_TOOLS.any fun t =>
      containsSub "xirr" (lowerStr t.name) || containsSub "xirr" (lowerStr t.descr)) = false ∧
    exposesKey "xirr" = false ∧
    opSearchKeys.all exposesKey = false :=
  ⟨rfl, rfl, rfl⟩

/-- C1, amended: each of NPV, IRR, MOIC and circular three-statement
resolution (but not XIRR, which has no entry point) is exposed as a named tool
that is both registered in `ALL_TOOLS` and dispatched by the call handler of
`index.ts`; the IRR tool's input contract requires only `cash_flows` and
documents `initial_guess` as an optional number-or-string defaulting to 10
(percent). -/
theorem C1_operations_exposed :
    (["calculate_npv", "calculate_irr", "calculate_moic", "three_statement_model"].all
      fun n => (ALL_TOOLS.any fun t => t.name == n) && dispatchedToolNames.contains n) = true ∧
    ((findTool "calculate_irr").map ToolDef.required) = some ["cash_flows"] ∧
    ((findTool "calculate_irr").bind fun t => t.props.find? fun p => p.pname == "initial_guess") =
      some ⟨"initial_guess", .leaf .numOrStr,
        some "Initial guess for IRR as percentage (defaults to 10)"⟩ ∧
    exposesKey "xirr" = false :=
  ⟨rfl, rfl, rfl, rfl⟩

/-- C2: a cash-flow series with no sign change makes `calculate_irr` fail with
`InvalidInput{NoSignChange}` immediately, with zero iterations performed —
the Newton-Raphson and bisection loops are never entered. -/
theorem C2_no_sign_change_fails_immediately (cfs : List ℚ) (guessPct : ℚ)
    (h : hasSignChange cfs = false) :
    calculate_irr cfs guessPct = .failed (.invalidInput .noSignChange) (guessPct / 100) 0 := by
  rw [calculate_irr, h]
  simp

/-- C2, witness: the all-positive series `[100, 200, 300]` has no sign change
and IRR on it fails with `NoSignChange` at zero iterations. -/
theorem C2_witness :
    hasSignChange [100, 200, 300] = false ∧
    calculate_irr [100, 200, 300] 10 = .failed (.invalidInput .noSignChange) (10 / 100) 0 :=
  ⟨by decide, C2_no_sign_change_fails_immediately [100, 200, 300] 10 (by decide)⟩

/-- C3: for a non-empty series and a rate (as a fraction) strictly above −1,
`calculate_npv` returns the closed-form sum `Σ cf[t]/(1+rate)^t`; it fails
with `InvalidInput` whenever the rate is ≤ −1 or the series is empty. -/
theorem C3_npv_closed_form (cfs : List ℚ) (r : ℚ) :
    (cfs ≠ [] → -1 < r →
      calculate_npv cfs r =
        .ok (∑ i ∈ Finset.range cfs.length, cfs.getD i 0 / (1 + r) ^ i)) ∧
    ((r ≤ -1 ∨ cfs = []) → ∃ why, calculate_npv cfs r = .error (.invalidInput why)) := by
  constructor
  · intro hne hr
    obtain ⟨c, cs, rfl⟩ := List.exists_cons_of_ne_nil hne
    rw [calculate_npv]
    rw [if_neg (by simp), if_neg (not_le.mpr hr), npvGo_eq_sum]
    simp
  · rintro (hr | rfl)
    · rcases cfs with _ | ⟨c, cs⟩
      · exact ⟨.emptySeries, rfl⟩
      · refine ⟨.rateTooLow, ?_⟩
        rw [calculate_npv, if_neg (by simp), if_pos hr]
    · exact ⟨.emptySeries, rfl⟩

/-- C3, witness: the two-entry series `[-100, 110]` at rate `1/10` is in the
valid domain and evaluates to the closed-form sum; the empty series fails with
`InvalidInput`. -/
theorem C3_witness :
    (calculate_npv [-100, 110] (1 / 10) =
      .ok (∑ i ∈ Finset.range ([(-100 : ℚ), 110].length),
        [(-100 : ℚ), 110].getD i 0 / (1 + 1 / 10) ^ i)) ∧
    ∃ why, calculate_npv [] (1 / 10) = .error (.invalidInput why) :=
  ⟨(C3_npv_closed_form [-100, 110] (1 / 10)).1 (by simp) (by norm_num),
   (C3_npv_closed_form [] (1 / 10)).2 (Or.inr rfl)⟩

/-- C4: whenever the IRR rootfinder reports `Converged{rate, iterations}`, the
returned rate satisfies `|NPV(cashFlows, rate)| < tolerance` — no
non-converged estimate is ever reported as converged — and on the two-entry
series `[-100, 110]` the returned IRR is exactly 10% (the fraction `1/10`). -/
theorem C4_converged_rate_is_root :
    (∀ (cfs : List ℚ) (guessPct r : ℚ) (its : Nat),
      calculate_irr cfs guessPct = .converged r its → |npvValue cfs r| < tolerance) ∧
    calculate_irr [-100, 110] 10 = .converged (1 / 10) 0 := by
  constructor
  · intro cfs g r its h
    rw [calculate_irr] at h
    by_cases hs : hasSignChange cfs
    · rw [if_pos hs] at h
      exact newtonGo_converged cfs irrMaxIter (g / 100) 0 r its h
    · rw [if_neg hs] at h
      exact absurd h (by simp)
  · have h0 : npvValue [-100, 110] ((10 : ℚ) / 100) = 0 := by norm_num [npvValue, npvGo]
    have h1 : |npvValue [-100, 110] ((10 : ℚ) / 100)| < tolerance := by
      rw [h0]; norm_num [tolerance]
    have hs : hasSignChange [-100, 110] = true := by decide
    rw [calculate_irr, if_pos hs, newtonGo.eq_def, if_pos h1]
    norm_num

/-- C4, witness: applying the converged-implies-root direction to the concrete
run on `[-100, 110]` shows `|NPV([-100, 110], 1/10)| < tolerance`. -/
theorem C4_witness : |npvValue [-100, 110] (1 / 10)| < tolerance :=
  C4_converged_rate_is_root.1 [-100, 110] 10 (1 / 10) 0 C4_converged_rate_is_root.2

/-- C5: `calculate_moic` returns exactly `realizedValue / investedCapital` for
positive invested capital — in particular `5/2` for invested `100000` and
realized `250000` — and fails with `DivisionByZero` at zero invested capital
and `InvalidInput` at negative invested capital. -/
theorem C5_moic_exact (invested realized : ℚ) :
    (0 < invested → calculate_moic invested realized = .ok (realized / invested)) ∧
    (invested = 0 → calculate_moic invested realized = .error .divisionByZero) ∧
    (invested < 0 →
      calculate_moic invested realized = .error (.invalidInput .negativeInvestedCapital)) ∧
    calculate_moic 100000 250000 = .ok (5 / 2) := by
  refine ⟨?_, ?_, ?_, ?_⟩
  · intro hp
    rw [calculate_moic, if_neg (not_lt.mpr hp.le), divChecked, if_neg (ne_of_gt hp)]
  · intro hz
    rw [calculate_moic, if_neg (by rw [hz]; exact lt_irrefl 0), divChecked, if_pos hz]
  · intro hn
    rw [calculate_moic, if_pos hn]
  · norm_num [calculate_moic, divChecked]

/-- C5, witness: MOIC of invested 4 and realized 10 is `10/4`, by the
positive-invested-capital case at a concrete input. -/
theorem C5_witness : calculate_moic 4 10 = .ok (10 / 4) :=
  (C5_moic_exact 4 10).1 (by norm_num)

/-- C6: for every update function, tolerance, cap and initial estimate the
circular solver terminates with a tagged outcome: either it converges within
the cap with the convergence test genuinely satisfied by the state it
returns, or on reaching the cap it returns
`Failed{NoConvergence, lastState, iterations = cap}` — it never loops and
never reports a non-converged state as converged. -/
theorem C6_solver_terminates (f : List ℚ → List ℚ) (tol : ℚ) (cap : Nat) (s0 : List ℚ) :
    (∃ prev s its, circularSolver f tol cap s0 = .converged s its ∧ s = f prev ∧
      maxAbsDiff prev s < tol ∧ its ≤ cap) ∨
    (∃ last, circularSolver f tol cap s0 = .failed .noConvergence last cap) := by
  rcases fixedPointGo_trichotomy f tol cap s0 0 with ⟨prev, s2, k, hk, hsf, hm, hle⟩ | ⟨last, hl⟩
  · exact Or.inl ⟨prev, s2, k, hk, hsf, hm, by omega⟩
  · refine Or.inr ⟨last, ?_⟩
    rw [circularSolver, hl]
    congr 1
    omega

/-- C7: the circular solver is a deterministic, pure function of the update
function and the initial estimate: two runs whose update functions agree on
every state (and with the same tolerance, cap and initial estimate) produce
the same tagged outcome, iteration count included. -/
theorem C7_solver_deterministic (f g : List ℚ → List ℚ) (tol : ℚ) (cap : Nat) (s0 : List ℚ)
    (h : ∀ s, f s = g s) : circularSolver f tol cap s0 = circularSolver g tol cap s0 := by
  rw [funext h]

/-- C7, witness: two syntactically different but pointwise-equal update
functions (a composed map and its fusion) run to identical outcomes on a
concrete initial estimate. -/
theorem C7_witness :
    circularSolver (fun s => (s.map fun x => x / 2).map fun x => x + 10) (1 / 100) 200 [0] =
      circularSolver (fun s => s.map fun x => x / 2 + 10) (1 / 100) 200 [0] :=
  C7_solver_deterministic _ _ (1 / 100) 200 [0] fun s => by
    rw [List.map_map]; rfl

/-- C8, counterexample: not every numeric input field of every exposed tool
accepts both encodings — the only offender is `paper_lbo`, whose
`hold_period_years` is JSON-schema type `'number'` and Zod `z.number()`,
with no string alternative. -/
theorem C8_numeric_field_counterexample :
    ¬(ALL_TOOLS.all toolAcceptsBoth = true ∧
      zodSchemas.all (fun p => zodAcceptsBoth p.2) = true) ∧
    (ALL_TOOLS.filter fun t => !toolAcceptsBoth t).map ToolDef.name = ["paper_lbo"] ∧
    ((findTool "paper_lbo").bind fun t => t.props.find? fun p => p.pname == "hold_period_years") =
      some ⟨"hold_period_years", .leaf .num, some "Hold period in years"⟩ ∧
    (PaperLboInputSchema.find? fun p => p.1 == "hold_period_years") =
      some ("hold_period_years", .plain .znum) := by
  refine ⟨fun h => ?_, rfl, rfl, rfl⟩
  have hfalse : ALL_TOOLS.all toolAcceptsBoth = false := rfl
  rw [hfalse] at h
  exact Bool.noConfusion h.1

/-- C8, amended: every numeric input field of every exposed tool other than
`paper_lbo`'s `hold_period_years` has JSON-schema type `['number', 'string']`
and Zod schema `z.string().or(z.number())`, so it accepts both a native
number and a decimal-formatted string. -/
theorem C8_numeric_fields_accept_both :
    (ALL_TOOLS.all fun t => t.props.all fun p =>
      p.pname == "hold_period_years" || fieldAcceptsBoth p.jty) = true ∧
    (zodSchemas.all fun s => s.2.all fun p =>
      p.1 == "hold_period_years" || zfieldAcceptsBoth p.2) = true :=
  ⟨rfl, rfl⟩

/-- C9: every tool handler is total over recoverable failures: whenever Zod
validation, the native binding, or JSON-parsing of its result fails with an
`Error` carrying message `m`, the handler returns (rather than crashing) an
`McpError` with code `InvalidRequest` whose message is the handler's context
text followed by `m` — so it contains the underlying message. -/
theorem C9_handler_wraps_errors {A V J : Type} (context : String)
    (validate : A → Except String V) (stringifyVal : V → String)
    (binding : String → Except String String) (parseJson : String → Except String J)
    (pretty2 : J → String) (args : A) (m : String) :
    (validate args = .error m →
      runToolHandler context validate stringifyVal binding parseJson pretty2 args =
        .error ⟨.invalidRequest, context ++ m⟩ ∧ msgContains m (context ++ m)) ∧
    (∀ v, validate args = .ok v → binding (stringifyVal v) = .error m →
      runToolHandler context validate stringifyVal binding parseJson pretty2 args =
        .error ⟨.invalidRequest, context ++ m⟩ ∧ msgContains m (context ++ m)) ∧
    (∀ v resultJson, validate args = .ok v → binding (stringifyVal v) = .ok resultJson →
      parseJson resultJson = .error m →
      runToolHandler context validate stringifyVal binding parseJson pretty2 args =
        .error ⟨.invalidRequest, context ++ m⟩ ∧ msgContains m (context ++ m)) := by
  have hcontains : msgContains m (context ++ m) :=
    ⟨context, "", by rw [append_empty_string]⟩
  refine ⟨fun hv => ⟨?_, hcontains⟩, fun v hv hb => ⟨?_, hcontains⟩,
    fun v resultJson hv hb hp => ⟨?_, hcontains⟩⟩
  · simp only [runToolHandler, hv]
  · simp only [runToolHandler, hv, hb]
  · simp only [runToolHandler, hv, hb, hp]

/-- C9, witness: a handler with the WACC context whose validation throws
`"bad"` returns `McpError(InvalidRequest)` with the underlying message
contained in the wrapped one. -/
theorem C9_witness :
    runToolHandler "WACC calculation failed: " (fun _ : Unit => .error "bad")
        (fun s : String => s) (fun _ => .ok "") (fun s => .ok s) (fun s => s) () =
      .error ⟨.invalidRequest, "WACC calculation failed: " ++ "bad"⟩ ∧
    msgContains "bad" ("WACC calculation failed: " ++ "bad") :=
  (C9_handler_wraps_errors "WACC calculation failed: " (fun _ : Unit => .error "bad")
    (fun s : String => s) (fun _ => .ok "") (fun s => .ok s) (fun s => s) () "bad").1 rfl

/-- C10: a tool handler succeeds exactly when validation, the binding applied
to precisely the serialization of the validated value, and JSON-parsing of the
binding's result string all succeed — and then its output is one single
`'text'` content item whose text is the 2-space pretty-printing of the parsed
result. -/
theorem C10_handler_success_shape {A V J : Type} (context : String)
    (validate : A → Except String V) (stringifyVal : V → String)
    (binding : String → Except String String) (parseJson : String → Except String J)
    (pretty2 : J → String) (args : A) (out : ToolOutput) :
    runToolHandler context validate stringifyVal binding parseJson pretty2 args = .ok out ↔
    ∃ v resultJson result, validate args = .ok v ∧
      binding (stringifyVal v) = .ok resultJson ∧ parseJson resultJson = .ok result ∧
      out = { content := [{ type := "text", text := pretty2 result }] } := by
  constructor
  · intro h
    rcases hv : validate args with m | v <;> simp only [runToolHandler, hv] at h
    · exact absurd h (by simp)
    · rcases hb : binding (stringifyVal v) with m | resultJson <;> simp only [hb] at h
      · exact absurd h (by simp)
      · rcases hp : parseJson resultJson with m | result <;> simp only [hp] at h
        · exact absurd h (by simp)
        · injection h with h1
          exact ⟨v, resultJson, result, rfl, hb, hp, h1.symm⟩
  · rintro ⟨v, resultJson, result, hv, hb, hp, rfl⟩
    simp only [runToolHandler, hv, hb, hp]

/-- C10, witness: with concrete stub validation, binding and parsing, the
handler returns exactly one text content item holding the pretty-printed
parsed result. -/
theorem C10_witness :
    runToolHandler "NPV calculation failed: " (fun _ : Unit => .ok "v")
        (fun s : String => s) (fun _ => .ok "rj") (fun s => .ok s) (fun s => s) () =
      .ok { content := [{ type := "text", text := "rj" }] } :=
  (C10_handler_success_shape "NPV calculation failed: " (fun _ : Unit => .ok "v")
    (fun s : String => s) (fun _ => .ok "rj") (fun s => .ok s) (fun s => s) ()
    { content := [{ type := "text", text := "rj" }] }).mpr
    ⟨"v", "rj", "rj", rfl, rfl, rfl, rfl⟩
